import Mathlib

/-!
Verification development for the nowmcp ServiceNow MCP server.

Shallow embedding of the query-filter translation and validation layer:
  * `src/services/servicenow-client.ts` — `buildEncodedQuery`, `queryTable`
    request-parameter construction;
  * `src/schemas/incident-schemas.ts` — zod schemas for the five incident
    tools (enum vocabulary tables with transforms, limit bounds/default,
    delete confirmation refinement), modelled with collect-all issue
    accumulation as zod's `.parse` performs;
  * `src/tools/incident-tools.ts` (validated version) and the legacy
    `src/tools/incident-tools.ts` — the incident operations, modelled as
    functions from a record-store oracle and a raw JSON payload to a
    result (`Except` for thrown validation errors) together with the
    ordered trace of store calls issued.

JavaScript values are modelled by `Json` (numbers as `Rat`; the JS float
formatting of non-integer numbers is approximated, no claim depends on it).
-/

/-- A JSON-like runtime value, as received in a tool-call payload.
Numbers are modelled as rationals (JS numbers); objects keep key order. -/
inductive Json where
  | str (s : String)
  | num (q : Rat)
  | bool (b : Bool)
  | null
  | arr (xs : List Json)
  | obj (kvs : List (String × Json))

/-- The runtime type name of a value, as zod reports it in messages. -/
def typeNameOf : Json → String
  | .str _ => "string"
  | .num _ => "number"
  | .bool _ => "boolean"
  | .null => "null"
  | .arr _ => "array"
  | .obj _ => "object"

/-- Scalar filter values: `z.union([z.string(), z.number(), z.boolean()])`. -/
inductive Scalar where
  | str (s : String)
  | num (q : Rat)
  | bool (b : Bool)
deriving DecidableEq

/-- Rendering of a JS number in a template literal. Integers render as
their decimal numeral; non-integer formatting is approximated (no claim
depends on it). -/
def ratRender (q : Rat) : String :=
  if q.den = 1 then toString q.num else toString q

/-- JS template-literal rendering of a scalar (`${val}`). -/
def Scalar.render : Scalar → String
  | .str s => s
  | .num q => ratRender q
  | .bool b => cond b "true" "false"

/-- The query operators of `QueryOperatorSchema` in
`src/schemas/incident-schemas.ts`. -/
inductive QOp where
  | eq | neq | gt | gte | lt | lte
  | like | startswith | endswith | containsOp
  | inOp | notIn | isEmptyOp | isNotEmptyOp
deriving DecidableEq

/-- The literal operator text, exactly the zod enum strings. -/
def QOp.symbol : QOp → String
  | .eq => "="
  | .neq => "!="
  | .gt => ">"
  | .gte => ">="
  | .lt => "<"
  | .lte => "<="
  | .like => "LIKE"
  | .startswith => "STARTSWITH"
  | .endswith => "ENDSWITH"
  | .containsOp => "CONTAINS"
  | .inOp => "IN"
  | .notIn => "NOT IN"
  | .isEmptyOp => "ISEMPTY"
  | .isNotEmptyOp => "ISNOTEMPTY"

/-- A filter value: a plain scalar, or an `{operator, value}` object. -/
inductive QueryValue where
  | lit (v : Scalar)
  | opv (o : QOp) (v : Scalar)
deriving DecidableEq

/-- A query filter object: field names to values, in key-insertion order
(`Object.entries` iteration order). -/
abbrev QueryFilter := List (String × QueryValue)

/-- One loop iteration of `buildEncodedQuery`: an `{operator, value}` entry
emits `field + operator + value`, a plain value emits `field=value`. -/
def serializeEntry : String × QueryValue → String
  | (f, .opv o v) => f ++ o.symbol ++ v.render
  | (f, .lit v) => f ++ "=" ++ v.render

/-- `ServiceNowClient.buildEncodedQuery`: serialize each entry and join the
fragments with a caret (`queryParts.join('^')`). -/
def buildEncodedQuery (filter : QueryFilter) : String :=
  String.intercalate "^" (filter.map serializeEntry)

/-- Number of occurrences of a character in a string. -/
def countChar (c : Char) (s : String) : Nat :=
  s.data.count c

theorem countChar_append (c : Char) (s t : String) :
    countChar c (s ++ t) = countChar c s + countChar c t := by
  simp [countChar, List.count_append]

theorem countChar_intercalate_go (c : Char) (sep acc : String) (l : List String) :
    countChar c (String.intercalate.go acc sep l) =
      countChar c acc + (l.map (countChar c)).sum + l.length * countChar c sep := by
  induction l generalizing acc with
  | nil => simp [String.intercalate.go]
  | cons a as ih =>
    simp only [String.intercalate.go, ih, countChar_append, List.map_cons,
      List.sum_cons, List.length_cons]
    ring

/-- Character count of a caret-join: one separator between consecutive
fragments plus the characters inside the fragments. -/
theorem countChar_intercalate (c : Char) (sep : String) (l : List String) :
    countChar c (String.intercalate sep l) =
      (l.map (countChar c)).sum + (l.length - 1) * countChar c sep := by
  cases l with
  | nil => simp [String.intercalate, countChar]
  | cons a as =>
    simp only [String.intercalate, countChar_intercalate_go, List.map_cons,
      List.sum_cons, List.length_cons, Nat.add_sub_cancel]

/-! ## Vocabulary Mapper — zod enums with transforms
(`src/schemas/incident-schemas.ts`). Each enum accepts both the coded
values and the human-readable labels; the transform maps labels to codes
via a lookup with `|| val` fallback, so codes pass through unchanged. -/

/-- A single field-level validation issue: the field path and message,
as carried by a `ZodIssue`. -/
structure Issue where
  path : List String
  message : String
deriving DecidableEq

/-- The accepted values of `IncidentStateEnum`. -/
def stateValues : List String :=
  ["1", "2", "3", "6", "7", "8",
   "New", "In Progress", "On Hold", "Resolved", "Closed", "Canceled"]

/-- The `stateMap` lookup table inside the `IncidentStateEnum` transform. -/
def stateMap : String → Option String
  | "New" => some "1"
  | "In Progress" => some "2"
  | "On Hold" => some "3"
  | "Resolved" => some "6"
  | "Closed" => some "7"
  | "Canceled" => some "8"
  | _ => none

/-- `IncidentStateEnum.parse`: enum membership check, then the transform
`stateMap[val] || val`. -/
def IncidentStateEnum (j : Json) : Except (List Issue) String :=
  match j with
  | .str s =>
    if stateValues.contains s then .ok ((stateMap s).getD s)
    else .error [⟨[], "Invalid enum value"⟩]
  | _ => .error [⟨[], "Expected string, received " ++ typeNameOf j⟩]

/-- The accepted values of `IncidentPriorityEnum`. -/
def priorityValues : List String :=
  ["1", "2", "3", "4", "5", "Critical", "High", "Moderate", "Low", "Planning"]

/-- The `priorityMap` lookup table inside the `IncidentPriorityEnum`
transform. -/
def priorityMap : String → Option String
  | "Critical" => some "1"
  | "High" => some "2"
  | "Moderate" => some "3"
  | "Low" => some "4"
  | "Planning" => some "5"
  | _ => none

/-- `IncidentPriorityEnum.parse`. -/
def IncidentPriorityEnum (j : Json) : Except (List Issue) String :=
  match j with
  | .str s =>
    if priorityValues.contains s then .ok ((priorityMap s).getD s)
    else .error [⟨[], "Invalid enum value"⟩]
  | _ => .error [⟨[], "Expected string, received " ++ typeNameOf j⟩]

/-- The accepted values of `IncidentUrgencyEnum` (shared by urgency and
impact). -/
def urgencyValues : List String := ["1", "2", "3", "High", "Medium", "Low"]

/-- The `urgencyMap` lookup table inside the `IncidentUrgencyEnum`
transform. -/
def urgencyMap : String → Option String
  | "High" => some "1"
  | "Medium" => some "2"
  | "Low" => some "3"
  | _ => none

/-- `IncidentUrgencyEnum.parse`. -/
def IncidentUrgencyEnum (j : Json) : Except (List Issue) String :=
  match j with
  | .str s =>
    if urgencyValues.contains s then .ok ((urgencyMap s).getD s)
    else .error [⟨[], "Invalid enum value"⟩]
  | _ => .error [⟨[], "Expected string, received " ++ typeNameOf j⟩]

/-! ## zod object-parsing infrastructure
Field extraction, path prefixing, and the collect-all issue accumulation
that `ZodObject.parse` performs (all shape keys are processed and every
issue is reported, not just the first). -/

/-- JS property read on an object's entry list (first occurrence). -/
def getKey (kvs : List (String × Json)) (k : String) : Option Json :=
  (kvs.find? (fun kv => kv.1 = k)).map (fun kv => kv.2)

/-- Prefix an issue's path with the field key, as zod does when it
descends into an object property. -/
def prefixIssue (k : String) (i : Issue) : Issue :=
  ⟨k :: i.path, i.message⟩

/-- Prefix every issue of a failed sub-parse with the field key. -/
def mapErrPrefix {α : Type} (k : String) :
    Except (List Issue) α → Except (List Issue) α
  | .ok a => .ok a
  | .error es => .error (es.map (prefixIssue k))

/-- A required object field: absent reports zod's `Required` issue. -/
def fieldReq {α : Type} (k : String) (p : Json → Except (List Issue) α)
    (kvs : List (String × Json)) : Except (List Issue) α :=
  match getKey kvs k with
  | none => .error [⟨[k], "Required"⟩]
  | some v => mapErrPrefix k (p v)

/-- An `.optional()` object field. -/
def fieldOpt {α : Type} (k : String) (p : Json → Except (List Issue) α)
    (kvs : List (String × Json)) : Except (List Issue) (Option α) :=
  match getKey kvs k with
  | none => .ok none
  | some v =>
    match mapErrPrefix k (p v) with
    | .ok a => .ok (some a)
    | .error es => .error es

/-- A field with a `.default(d)`. -/
def fieldDefault {α : Type} (k : String) (p : Json → Except (List Issue) α)
    (d : α) (kvs : List (String × Json)) : Except (List Issue) α :=
  match getKey kvs k with
  | none => .ok d
  | some v => mapErrPrefix k (p v)

/-- Combine two sub-parses, accumulating the issues of both when both
fail (zod reports every shape key's issues together). -/
def accum2 {α β : Type} :
    Except (List Issue) α → Except (List Issue) β → Except (List Issue) (α × β)
  | .ok a, .ok b => .ok (a, b)
  | .error e1, .error e2 => .error (e1 ++ e2)
  | .error e1, .ok _ => .error e1
  | .ok _, .error e2 => .error e2

/-- Combine a list of field sub-parses each yielding output-object
entries, concatenating entries on success and accumulating all issues on
failure. -/
def collectFields :
    List (Except (List Issue) (List (String × Json))) →
      Except (List Issue) (List (String × Json))
  | [] => .ok []
  | x :: xs =>
    match x, collectFields xs with
    | .ok a, .ok b => .ok (a ++ b)
    | .error e1, .error e2 => .error (e1 ++ e2)
    | .error e1, .ok _ => .error e1
    | .ok _, .error e2 => .error e2

/-- `z.string()`. -/
def parseStr (j : Json) : Except (List Issue) String :=
  match j with
  | .str s => .ok s
  | _ => .error [⟨[], "Expected string, received " ++ typeNameOf j⟩]

/-- `z.string().min(1, msg)`. -/
def parseMinStr (msg : String) (j : Json) : Except (List Issue) String :=
  match j with
  | .str s => if s.length = 0 then .error [⟨[], msg⟩] else .ok s
  | _ => .error [⟨[], "Expected string, received " ++ typeNameOf j⟩]

/-- `z.boolean().refine(val => val === true, ...)` of
`IncidentDeleteSchema.confirm`. -/
def parseConfirm (j : Json) : Except (List Issue) Bool :=
  match j with
  | .bool b =>
    if b then .ok true
    else .error [⟨[], "Deletion requires explicit confirmation. Set confirm to true."⟩]
  | _ => .error [⟨[], "Expected boolean, received " ++ typeNameOf j⟩]

/-- `InstanceNameSchema`: `z.enum(['primary', 'dev', 'test', 'prod'])`. -/
def parseInstance (j : Json) : Except (List Issue) String :=
  match j with
  | .str s =>
    if ["primary", "dev", "test", "prod"].contains s then .ok s
    else .error [⟨[], "Invalid enum value"⟩]
  | _ => .error [⟨[], "Expected string, received " ++ typeNameOf j⟩]

/-- `z.number().int().min(1).max(1000)` of `IncidentQuerySchema.limit`.
All three checks run and their issues accumulate, as zod checks do. -/
def parseLimit (j : Json) : Except (List Issue) Int :=
  match j with
  | .num x =>
    let issues :=
      (if x.den = 1 then [] else [(⟨[], "Expected integer, received float"⟩ : Issue)])
      ++ (if x < 1 then [(⟨[], "Number must be greater than or equal to 1"⟩ : Issue)] else [])
      ++ (if x > 1000 then [(⟨[], "Number must be less than or equal to 1000"⟩ : Issue)] else [])
    if issues = [] then .ok x.num else .error issues
  | _ => .error [⟨[], "Expected number, received " ++ typeNameOf j⟩]

/-- Elements of a `z.array(z.string())`, with numeric index paths;
all element issues are collected. -/
def parseStrList (idx : Nat) : List Json → Except (List Issue) (List String)
  | [] => .ok []
  | x :: xs =>
    match mapErrPrefix (toString idx) (parseStr x), parseStrList (idx + 1) xs with
    | .ok s, .ok l => .ok (s :: l)
    | .error e1, .error e2 => .error (e1 ++ e2)
    | .error e1, .ok _ => .error e1
    | .ok _, .error e2 => .error e2

/-- `z.array(z.string())` of the `fields` inputs. -/
def parseFields (j : Json) : Except (List Issue) (List String) :=
  match j with
  | .arr xs => parseStrList 0 xs
  | _ => .error [⟨[], "Expected array, received " ++ typeNameOf j⟩]

/-! ## Query filter validation (`QueryValueSchema`, `QueryFilterSchema`) -/

/-- `QueryOperatorSchema.operator`: the operator enum. -/
def opOfString : String → Option QOp
  | "=" => some .eq
  | "!=" => some .neq
  | ">" => some .gt
  | ">=" => some .gte
  | "<" => some .lt
  | "<=" => some .lte
  | "LIKE" => some .like
  | "STARTSWITH" => some .startswith
  | "ENDSWITH" => some .endswith
  | "CONTAINS" => some .containsOp
  | "IN" => some .inOp
  | "NOT IN" => some .notIn
  | "ISEMPTY" => some .isEmptyOp
  | "ISNOTEMPTY" => some .isNotEmptyOp
  | _ => none

/-- Parse the `operator` property of a `QueryOperatorSchema` object. -/
def parseOperatorName (j : Json) : Except (List Issue) QOp :=
  match j with
  | .str s =>
    match opOfString s with
    | some o => .ok o
    | none => .error [⟨[], "Invalid enum value"⟩]
  | _ => .error [⟨[], "Expected string, received " ++ typeNameOf j⟩]

/-- The scalar union `z.union([z.string(), z.number(), z.boolean()])`. -/
def parseScalar (j : Json) : Except (List Issue) Scalar :=
  match j with
  | .str s => .ok (.str s)
  | .num q => .ok (.num q)
  | .bool b => .ok (.bool b)
  | _ => .error [⟨[], "Invalid input"⟩]

/-- `QueryOperatorSchema`: `z.object({operator, value})`. -/
def parseOperatorObj (kvs : List (String × Json)) : Except (List Issue) QueryValue :=
  match accum2 (fieldReq "operator" parseOperatorName kvs)
      (fieldReq "value" parseScalar kvs) with
  | .ok (o, v) => .ok (.opv o v)
  | .error es => .error es

/-- `QueryValueSchema`: the union of the three scalars and
`QueryOperatorSchema` (an object input is matched by the object branch). -/
def parseQueryValue (j : Json) : Except (List Issue) QueryValue :=
  match j with
  | .str s => .ok (.lit (.str s))
  | .num q => .ok (.lit (.num q))
  | .bool b => .ok (.lit (.bool b))
  | .obj kvs => parseOperatorObj kvs
  | _ => .error [⟨[], "Invalid input"⟩]

/-- Entries of a `z.record(z.string(), QueryValueSchema)`, in key order,
collecting every entry's issues under its key path. -/
def parseFilterEntries : List (String × Json) → Except (List Issue) QueryFilter
  | [] => .ok []
  | (k, v) :: kvs =>
    match mapErrPrefix k (parseQueryValue v), parseFilterEntries kvs with
    | .ok q, .ok rest => .ok ((k, q) :: rest)
    | .error e1, .error e2 => .error (e1 ++ e2)
    | .error e1, .ok _ => .error e1
    | .ok _, .error e2 => .error e2

/-- `QueryFilterSchema` (without the `.optional()`). -/
def parseFilter (j : Json) : Except (List Issue) QueryFilter :=
  match j with
  | .obj kvs => parseFilterEntries kvs
  | _ => .error [⟨[], "Expected object, received " ++ typeNameOf j⟩]

/-! ## Tool input validators (`IncidentQuerySchema`, `IncidentGetSchema`,
`IncidentUpdateSchema`, `IncidentDeleteSchema`) -/

/-- The normalized output of `IncidentQuerySchema`. -/
structure QueryInput where
  filter : Option QueryFilter
  limit : Int
  fields : Option (List String)
  instanceName : Option String

/-- The normalized output of `IncidentGetSchema`. -/
structure GetInput where
  identifier : String
  fields : Option (List String)
  instanceName : Option String

/-- The normalized output of `IncidentDeleteSchema`. -/
structure DeleteInput where
  identifier : String
  confirm : Bool
  instanceName : Option String

/-- `IncidentQuerySchema.parse`: filter optional, limit
`int().min(1).max(1000).default(100)`, fields optional, instance optional.
Unknown keys are stripped silently (plain `z.object`). -/
def validateQuery (j : Json) : Except (List Issue) QueryInput :=
  match j with
  | .obj kvs =>
    match accum2 (accum2 (accum2
        (fieldOpt "filter" parseFilter kvs)
        (fieldDefault "limit" parseLimit 100 kvs))
        (fieldOpt "fields" parseFields kvs))
        (fieldOpt "instance" parseInstance kvs) with
    | .ok (((f, l), fl), inst) => .ok ⟨f, l, fl, inst⟩
    | .error es => .error es
  | _ => .error [⟨[], "Expected object, received " ++ typeNameOf j⟩]

/-- `IncidentGetSchema.parse`: identifier non-empty, fields optional,
instance optional. -/
def validateGet (j : Json) : Except (List Issue) GetInput :=
  match j with
  | .obj kvs =>
    match accum2 (accum2
        (fieldReq "identifier" (parseMinStr "Identifier cannot be empty") kvs)
        (fieldOpt "fields" parseFields kvs))
        (fieldOpt "instance" parseInstance kvs) with
    | .ok ((i, fl), inst) => .ok ⟨i, fl, inst⟩
    | .error es => .error es
  | _ => .error [⟨[], "Expected object, received " ++ typeNameOf j⟩]

/-- `IncidentDeleteSchema.parse`: identifier non-empty, confirm must be
literally `true`, instance optional. -/
def validateDelete (j : Json) : Except (List Issue) DeleteInput :=
  match j with
  | .obj kvs =>
    match accum2 (accum2
        (fieldReq "identifier" (parseMinStr "Identifier cannot be empty") kvs)
        (fieldReq "confirm" parseConfirm kvs))
        (fieldOpt "instance" parseInstance kvs) with
    | .ok ((i, c), inst) => .ok ⟨i, c, inst⟩
    | .error es => .error es
  | _ => .error [⟨[], "Expected object, received " ++ typeNameOf j⟩]

/-- An optional shape field of the update schema, contributing its
(possibly transformed) entry to the validated output object. -/
def fieldOptOut (k : String) (p : Json → Except (List Issue) Json)
    (kvs : List (String × Json)) : Except (List Issue) (List (String × Json)) :=
  match getKey kvs k with
  | none => .ok []
  | some v =>
    match mapErrPrefix k (p v) with
    | .ok w => .ok [(k, w)]
    | .error es => .error es

/-- A plain `z.string().optional()` shape field, output as-is. -/
def pStrJ (j : Json) : Except (List Issue) Json :=
  (parseStr j).map Json.str

/-- An enum shape field: the transform's coded output string. -/
def pEnumJ (e : Json → Except (List Issue) String) (j : Json) :
    Except (List Issue) Json :=
  (e j).map Json.str

/-- The shape keys of `IncidentUpdateSchema`, in declaration order. -/
def updateKnownKeys : List String :=
  ["identifier", "state", "priority", "urgency", "impact",
   "short_description", "description", "work_notes", "comments",
   "assignment_group", "assigned_to", "close_code", "close_notes",
   "category", "subcategory", "instance"]

/-- `IncidentUpdateSchema.parse` with `.passthrough()`: the validated
output object is the shape keys present (with enum transforms applied), in
shape order, followed by the unrecognized input keys verbatim. -/
def validateUpdate (j : Json) : Except (List Issue) (List (String × Json)) :=
  match j with
  | .obj kvs =>
    match collectFields
        [(match fieldReq "identifier" (parseMinStr "Identifier cannot be empty") kvs with
          | .ok s => .ok [("identifier", Json.str s)]
          | .error es => .error es),
         fieldOptOut "state" (pEnumJ IncidentStateEnum) kvs,
         fieldOptOut "priority" (pEnumJ IncidentPriorityEnum) kvs,
         fieldOptOut "urgency" (pEnumJ IncidentUrgencyEnum) kvs,
         fieldOptOut "impact" (pEnumJ IncidentUrgencyEnum) kvs,
         fieldOptOut "short_description" pStrJ kvs,
         fieldOptOut "description" pStrJ kvs,
         fieldOptOut "work_notes" pStrJ kvs,
         fieldOptOut "comments" pStrJ kvs,
         fieldOptOut "assignment_group" pStrJ kvs,
         fieldOptOut "assigned_to" pStrJ kvs,
         fieldOptOut "close_code" pStrJ kvs,
         fieldOptOut "close_notes" pStrJ kvs,
         fieldOptOut "category" pStrJ kvs,
         fieldOptOut "subcategory" pStrJ kvs,
         fieldOptOut "instance" (pEnumJ parseInstance) kvs] with
    | .ok known => .ok (known ++ kvs.filter (fun kv => !updateKnownKeys.contains kv.1))
    | .error es => .error es
  | _ => .error [⟨[], "Expected object, received " ++ typeNameOf j⟩]

/-- The shape keys of `IncidentCreateSchema`, in declaration order. -/
def createKnownKeys : List String :=
  ["short_description", "description", "priority", "urgency", "impact",
   "category", "subcategory", "assignment_group", "assigned_to", "caller_id",
   "instance"]

/-- `IncidentCreateSchema.parse` with `.passthrough()`: required non-empty
`short_description`, optional plain strings, the priority and
urgency/impact enums, the instance enum, and unrecognized keys passed
through verbatim after the shape keys. -/
def validateCreate (j : Json) : Except (List Issue) (List (String × Json)) :=
  match j with
  | .obj kvs =>
    match collectFields
        [(match fieldReq "short_description"
            (parseMinStr "Short description is required and cannot be empty") kvs with
          | .ok s => .ok [("short_description", Json.str s)]
          | .error es => .error es),
         fieldOptOut "description" pStrJ kvs,
         fieldOptOut "priority" (pEnumJ IncidentPriorityEnum) kvs,
         fieldOptOut "urgency" (pEnumJ IncidentUrgencyEnum) kvs,
         fieldOptOut "impact" (pEnumJ IncidentUrgencyEnum) kvs,
         fieldOptOut "category" pStrJ kvs,
         fieldOptOut "subcategory" pStrJ kvs,
         fieldOptOut "assignment_group" pStrJ kvs,
         fieldOptOut "assigned_to" pStrJ kvs,
         fieldOptOut "caller_id" pStrJ kvs,
         fieldOptOut "instance" (pEnumJ parseInstance) kvs] with
    | .ok known => .ok (known ++ kvs.filter (fun kv => !createKnownKeys.contains kv.1))
    | .error es => .error es
  | _ => .error [⟨[], "Expected object, received " ++ typeNameOf j⟩]

/-! ## Record store collaborator and the client request parameters -/

/-- A ServiceNow record: field names to string values, in key order. -/
abbrev SNRecord := List (String × String)

/-- JS property read on a record; a missing property is `undefined`, which
renders as the text `undefined` in a template literal. -/
def getField (r : SNRecord) (k : String) : String :=
  match r.find? (fun kv => kv.1 = k) with
  | some kv => kv.2
  | none => "undefined"

/-- `TableQueryOptions` as passed to the client. -/
structure TableQueryOptions where
  limit : Option Int
  offset : Option Int
  fields : Option (List String)
  displayValue : Option Bool
  excludeReferenceLink : Bool

/-- The option-derived HTTP query parameters `queryTable` builds
(lines 76–95 of `servicenow-client.ts`): `sysparm_limit`/`sysparm_offset`
follow JS numeric truthiness (0 omitted), `sysparm_fields` joins with a
comma, `sysparm_display_value` on `!== undefined`,
`sysparm_exclude_reference_link` on truthiness. -/
def queryTableOptionParams (o : TableQueryOptions) : List (String × String) :=
  (match o.limit with
   | some l => if l = 0 then [] else [("sysparm_limit", toString l)]
   | none => [])
  ++ (match o.offset with
      | some x => if x = 0 then [] else [("sysparm_offset", toString x)]
      | none => [])
  ++ (match o.fields with
      | some fs => [("sysparm_fields", String.intercalate "," fs)]
      | none => [])
  ++ (match o.displayValue with
      | some dv => [("sysparm_display_value", cond dv "true" "false")]
      | none => [])
  ++ (if o.excludeReferenceLink then [("sysparm_exclude_reference_link", "true")] else [])

/-- The full HTTP query parameters of `queryTable` (lines 70–95).
`sysparm_query` is set whenever the filter argument is present
(`if (filter)` — any object, even an empty one, is truthy in JS). -/
def queryTableParams (filter : Option QueryFilter) (o : TableQueryOptions) :
    List (String × String) :=
  (match filter with
   | some f => [("sysparm_query", buildEncodedQuery f)]
   | none => [])
  ++ queryTableOptionParams o

/-- Look up a parameter by name in a built parameter list. -/
def lookupParam (ps : List (String × String)) (k : String) : Option String :=
  (ps.find? (fun p => p.1 = k)).map (fun p => p.2)

/-- A call issued to the record-store collaborator, with its arguments. -/
inductive StoreCall where
  | queryT (table : String) (filter : Option QueryFilter) (opts : TableQueryOptions)
  | getR (table : String) (sysId : String) (opts : TableQueryOptions)
  | createR (table : String) (data : List (String × Json))
  | updateR (table : String) (sysId : String) (data : List (String × Json))
  | deleteR (table : String) (sysId : String)

/-- The store oracle: the responses the remote store would give to each
call. Operations are proved for every store, so "given the same store
responses" is by construction. -/
structure Store where
  queryResult : String → Option QueryFilter → TableQueryOptions → List SNRecord
  getResult : String → String → TableQueryOptions → SNRecord
  createResult : String → List (String × Json) → SNRecord
  updateResult : String → String → List (String × Json) → SNRecord

/-- The lookup (queryT) calls of a trace. -/
def queryCalls (tr : List StoreCall) : List StoreCall :=
  tr.filter (fun c => match c with | .queryT .. => true | _ => false)

/-! ## Output text formatting -/

/-- Escape a character for a JSON string literal. -/
def escChar (c : Char) : String :=
  if c = '"' then "\x5c\x22"
  else if c = '\x5c' then "\x5c\x5c"
  else if c = '\n' then "\x5cn"
  else if c = '\t' then "\x5ct"
  else if c = '\r' then "\x5cr"
  else String.singleton c

/-- JSON string-literal escaping. -/
def jsonEscape (s : String) : String :=
  String.join (s.data.map escChar)

/-- One indented key/value line of `JSON.stringify(record, null, 2)`. -/
def stringifyPair (indent : String) (kv : String × String) : String :=
  indent ++ "\"" ++ jsonEscape kv.1 ++ "\": \"" ++ jsonEscape kv.2 ++ "\""

/-- `JSON.stringify(record, null, 2)` for a flat string-valued record. -/
def stringifyRecord (r : SNRecord) : String :=
  match r with
  | [] => "\x7b\x7d"
  | _ => "\x7b\n" ++ String.intercalate ",\n" (r.map (stringifyPair "  ")) ++ "\n\x7d"

/-- `JSON.stringify(record, null, 2)` nested one level inside an array. -/
def stringifyRecordNested (r : SNRecord) : String :=
  match r with
  | [] => "\x7b\x7d"
  | _ => "\x7b\n" ++ String.intercalate ",\n" (r.map (stringifyPair "    ")) ++ "\n  \x7d"

/-- `JSON.stringify(results, null, 2)` for a list of flat records. -/
def stringifyRecords (rs : List SNRecord) : String :=
  match rs with
  | [] => "[]"
  | _ => "[\n" ++ String.intercalate ",\n" (rs.map (fun r => "  " ++ stringifyRecordNested r)) ++ "\n]"

/-- One line of `formatValidationError`:
`  - ${path ? path + ': ' : ''}${err.message}` with `path = err.path.join('.')`. -/
def renderIssue (i : Issue) : String :=
  let path := String.intercalate "." i.path
  "  - " ++ (if path = "" then "" else path ++ ": ") ++ i.message

/-- `formatValidationError` of `incident-tools.ts`: all issues reported
together, one line each, under a `Validation Error:` header. -/
def formatValidationError (es : List Issue) : String :=
  "Validation Error:\n" ++ String.intercalate "\n" (es.map renderIssue)

/-! ## Incident operations (validated versions, `incident-tools.ts`).
Each returns the result (`Except.error` models a thrown validation error)
and the ordered list of store calls issued. -/

/-- `incidentQuery`. -/
def incidentQueryV (store : Store) (args : Json) :
    Except String String × List StoreCall :=
  match validateQuery args with
  | .error es => (.error (formatValidationError es), [])
  | .ok q =>
    let opts : TableQueryOptions := ⟨some q.limit, none, q.fields, none, false⟩
    let results := store.queryResult "incident" q.filter opts
    if results.length = 0 then
      (.ok "No incidents found matching the criteria.", [.queryT "incident" q.filter opts])
    else
      (.ok ("Found " ++ toString results.length ++ " incident(s):\n\n"
        ++ stringifyRecords results), [.queryT "incident" q.filter opts])

/-- The sys_id test `/^[a-f0-9]{32}$/i.test(identifier)`. -/
def isHexChar (c : Char) : Bool :=
  (('a' ≤ c) && (c ≤ 'f')) || (('A' ≤ c) && (c ≤ 'F')) || (('0' ≤ c) && (c ≤ '9'))

/-- `identifier` is exactly 32 case-insensitive hex characters. -/
def isSysId (s : String) : Bool :=
  s.length == 32 && s.data.all isHexChar

/-- `incidentGet` (validated version). -/
def incidentGetV (store : Store) (args : Json) :
    Except String String × List StoreCall :=
  match validateGet args with
  | .error es => (.error (formatValidationError es), [])
  | .ok g =>
    if isSysId g.identifier then
      let opts : TableQueryOptions := ⟨none, none, g.fields, none, false⟩
      let incident := store.getResult "incident" g.identifier opts
      (.ok ("Incident Details:\n\n" ++ stringifyRecord incident),
       [.getR "incident" g.identifier opts])
    else
      let opts : TableQueryOptions := ⟨some 1, none, g.fields, none, false⟩
      let filt : Option QueryFilter := some [("number", .lit (.str g.identifier))]
      match store.queryResult "incident" filt opts with
      | [] =>
        (.ok ("Incident \"" ++ g.identifier ++ "\" not found."),
         [.queryT "incident" filt opts])
      | r :: _ =>
        (.ok ("Incident Details:\n\n" ++ stringifyRecord r),
         [.queryT "incident" filt opts])

/-- The rest-destructuring `const { identifier, instance, ...updateData }`:
every validated entry except the two extracted keys, in order. -/
def updateDataOf (validatedArgs : List (String × Json)) : List (String × Json) :=
  validatedArgs.filter (fun kv => !(kv.1 == "identifier" || kv.1 == "instance"))

/-- JS string read of a property of the validated output object. -/
def getStrD (kvs : List (String × Json)) (k : String) : String :=
  match getKey kvs k with
  | some (.str s) => s
  | _ => ""

/-- Optional string read of a property of the validated output object. -/
def getOptStr (kvs : List (String × Json)) (k : String) : Option String :=
  match getKey kvs k with
  | some (.str s) => some s
  | _ => none

/-- One `if (field) incidentData.field = field` line of `incidentCreate`:
the property is appended when present and truthy (a non-empty string). -/
def condAdd (u : List (String × Json)) (k : String) : List (String × Json) :=
  match getOptStr u k with
  | some s => if s = "" then [] else [(k, Json.str s)]
  | none => []

/-- The record payload `incidentCreate` builds: `short_description` first,
then the rest-spread `...otherFields` (every key outside the create shape),
then the conditionally added named optional fields, in source order. -/
def createIncidentData (u : List (String × Json)) : List (String × Json) :=
  [("short_description", Json.str (getStrD u "short_description"))]
  ++ u.filter (fun kv => !createKnownKeys.contains kv.1)
  ++ condAdd u "description" ++ condAdd u "priority" ++ condAdd u "urgency"
  ++ condAdd u "impact" ++ condAdd u "category" ++ condAdd u "subcategory"
  ++ condAdd u "assignment_group" ++ condAdd u "assigned_to"
  ++ condAdd u "caller_id"

/-- `incidentCreate` (validated version). -/
def incidentCreateV (store : Store) (args : Json) :
    Except String String × List StoreCall :=
  match validateCreate args with
  | .error es => (.error (formatValidationError es), [])
  | .ok validatedArgs =>
    let incidentData := createIncidentData validatedArgs
    let newIncident := store.createResult "incident" incidentData
    (.ok ("✓ Incident created successfully!\n\nIncident Number: "
        ++ getField newIncident "number" ++ "\nSys ID: " ++ getField newIncident "sys_id"
        ++ "\n\nDetails:\n" ++ stringifyRecord newIncident),
     [.createR "incident" incidentData])

/-- The update success message. -/
def updSuccessMsg (r : SNRecord) : String :=
  "✓ Incident updated successfully!\n\nIncident Number: " ++ getField r "number"
    ++ "\n\nUpdated Details:\n" ++ stringifyRecord r

/-- `incidentUpdate` (validated version). -/
def incidentUpdateV (store : Store) (args : Json) :
    Except String String × List StoreCall :=
  match validateUpdate args with
  | .error es => (.error (formatValidationError es), [])
  | .ok validatedArgs =>
    let identifier := getStrD validatedArgs "identifier"
    let updateData := updateDataOf validatedArgs
    if isSysId identifier then
      let updated := store.updateResult "incident" identifier updateData
      (.ok (updSuccessMsg updated), [.updateR "incident" identifier updateData])
    else
      let opts : TableQueryOptions := ⟨some 1, none, some ["sys_id", "number"], none, false⟩
      let filt : Option QueryFilter := some [("number", .lit (.str identifier))]
      match store.queryResult "incident" filt opts with
      | [] =>
        (.ok ("Incident \"" ++ identifier ++ "\" not found."),
         [.queryT "incident" filt opts])
      | r :: _ =>
        let sysId := getField r "sys_id"
        let updated := store.updateResult "incident" sysId updateData
        (.ok (updSuccessMsg updated),
         [.queryT "incident" filt opts, .updateR "incident" sysId updateData])

/-- `incidentDelete` (validated version). -/
def incidentDeleteV (store : Store) (args : Json) :
    Except String String × List StoreCall :=
  match validateDelete args with
  | .error es => (.error (formatValidationError es), [])
  | .ok d =>
    if isSysId d.identifier then
      let opts : TableQueryOptions := ⟨none, none, some ["sys_id", "number"], none, false⟩
      let incident := store.getResult "incident" d.identifier opts
      (.ok ("✓ Incident " ++ getField incident "number" ++ " deleted successfully."),
       [.getR "incident" d.identifier opts, .deleteR "incident" (getField incident "sys_id")])
    else
      let opts : TableQueryOptions := ⟨some 1, none, some ["sys_id", "number"], none, false⟩
      let filt : Option QueryFilter := some [("number", .lit (.str d.identifier))]
      match store.queryResult "incident" filt opts with
      | [] =>
        (.ok ("Incident \"" ++ d.identifier ++ "\" not found."),
         [.queryT "incident" filt opts])
      | r :: _ =>
        (.ok ("✓ Incident " ++ getField r "number" ++ " deleted successfully."),
         [.queryT "incident" filt opts, .deleteR "incident" (getField r "sys_id")])

/-! ## Legacy `incidentGet` (pre-validation `src/tools/incident-tools.ts`),
duck-typed destructuring of the raw args. Property extraction is modelled
for payloads of the shapes the get schema accepts. -/

/-- `const { identifier } = args` read as a string. -/
def jsStrField (args : Json) (k : String) : String :=
  match args with
  | .obj kvs =>
    match getKey kvs k with
    | some (.str s) => s
    | _ => ""
  | _ => ""

/-- All-strings view of a JS array value. -/
def allStrings : List Json → Option (List String)
  | [] => some []
  | .str s :: xs => (allStrings xs).map (fun l => s :: l)
  | _ => none

/-- `const { fields } = args` read as an optional string array. -/
def jsFieldsField (args : Json) : Option (List String) :=
  match args with
  | .obj kvs =>
    match getKey kvs "fields" with
    | some (.arr xs) => allStrings xs
    | _ => none
  | _ => none

/-- Legacy `incidentGet`: no validation, same body as the validated one. -/
def incidentGetLegacy (store : Store) (args : Json) :
    Except String String × List StoreCall :=
  let identifier := jsStrField args "identifier"
  let fields := jsFieldsField args
  if isSysId identifier then
    let opts : TableQueryOptions := ⟨none, none, fields, none, false⟩
    let incident := store.getResult "incident" identifier opts
    (.ok ("Incident Details:\n\n" ++ stringifyRecord incident),
     [.getR "incident" identifier opts])
  else
    let opts : TableQueryOptions := ⟨some 1, none, fields, none, false⟩
    let filt : Option QueryFilter := some [("number", .lit (.str identifier))]
    match store.queryResult "incident" filt opts with
    | [] =>
      (.ok ("Incident \"" ++ identifier ++ "\" not found."),
       [.queryT "incident" filt opts])
    | r :: _ =>
      (.ok ("Incident Details:\n\n" ++ stringifyRecord r),
       [.queryT "incident" filt opts])

/-! ## Generic helper instances and lemmas -/

instance {ε α : Type} [DecidableEq ε] [DecidableEq α] : DecidableEq (Except ε α) :=
  fun a b =>
    match a, b with
    | .ok x, .ok y =>
      if h : x = y then .isTrue (by rw [h]) else .isFalse (by intro hc; cases hc; exact h rfl)
    | .error x, .error y =>
      if h : x = y then .isTrue (by rw [h]) else .isFalse (by intro hc; cases hc; exact h rfl)
    | .ok _, .error _ => .isFalse (by intro hc; cases hc)
    | .error _, .ok _ => .isFalse (by intro hc; cases hc)

theorem lookupParam_append (ps qs : List (String × String)) (k : String) :
    lookupParam (ps ++ qs) k = ((lookupParam ps k).or (lookupParam qs k)) := by
  simp [lookupParam, List.find?_append, Option.or, Option.map]
  cases List.find? (fun p => p.1 = k) ps <;> simp

/-- The option-derived request parameters never produce `sysparm_query`. -/
theorem lookupParam_optionParams (o : TableQueryOptions) :
    lookupParam (queryTableOptionParams o) "sysparm_query" = none := by
  obtain ⟨l, off, fs, dv, ex⟩ := o
  simp only [queryTableOptionParams, lookupParam_append]
  cases l <;> cases off <;> cases fs <;> cases dv <;> cases ex <;>
    simp [lookupParam]

/-- `sysparm_query` is present in the built request iff the filter
argument is present, and then carries the encoded query. -/
theorem sysparm_query_param (filter : Option QueryFilter) (o : TableQueryOptions) :
    lookupParam (queryTableParams filter o) "sysparm_query"
      = filter.map (fun f => buildEncodedQuery f) := by
  cases filter with
  | none =>
    have h : queryTableParams none o = queryTableOptionParams o := by
      simp [queryTableParams]
    rw [h, lookupParam_optionParams]
    rfl
  | some f =>
    simp [queryTableParams, lookupParam_append, lookupParam_optionParams, lookupParam]

/-! ## Claim C1 — vocabulary normalization -/

set_option maxHeartbeats 2000000

/-- C1: for each field kind (state, priority, urgency/impact), every
documented human-readable label normalizes to exactly its documented code
(state: New→1, In Progress→2, On Hold→3, Resolved→6, Closed→7, Canceled→8;
priority: Critical→1, High→2, Moderate→3, Low→4, Planning→5;
urgency/impact: High→1, Medium→2, Low→3), and every value that is already
a code of that kind passes through unchanged, so normalization is
idempotent on already-coded input. -/
theorem vocabulary_normalization_c1 :
    (IncidentStateEnum (.str "New") = .ok "1"
      ∧ IncidentStateEnum (.str "In Progress") = .ok "2"
      ∧ IncidentStateEnum (.str "On Hold") = .ok "3"
      ∧ IncidentStateEnum (.str "Resolved") = .ok "6"
      ∧ IncidentStateEnum (.str "Closed") = .ok "7"
      ∧ IncidentStateEnum (.str "Canceled") = .ok "8")
    ∧ (IncidentStateEnum (.str "1") = .ok "1"
      ∧ IncidentStateEnum (.str "2") = .ok "2"
      ∧ IncidentStateEnum (.str "3") = .ok "3"
      ∧ IncidentStateEnum (.str "6") = .ok "6"
      ∧ IncidentStateEnum (.str "7") = .ok "7"
      ∧ IncidentStateEnum (.str "8") = .ok "8")
    ∧ (IncidentPriorityEnum (.str "Critical") = .ok "1"
      ∧ IncidentPriorityEnum (.str "High") = .ok "2"
      ∧ IncidentPriorityEnum (.str "Moderate") = .ok "3"
      ∧ IncidentPriorityEnum (.str "Low") = .ok "4"
      ∧ IncidentPriorityEnum (.str "Planning") = .ok "5")
    ∧ (IncidentPriorityEnum (.str "1") = .ok "1"
      ∧ IncidentPriorityEnum (.str "2") = .ok "2"
      ∧ IncidentPriorityEnum (.str "3") = .ok "3"
      ∧ IncidentPriorityEnum (.str "4") = .ok "4"
      ∧ IncidentPriorityEnum (.str "5") = .ok "5")
    ∧ (IncidentUrgencyEnum (.str "High") = .ok "1"
      ∧ IncidentUrgencyEnum (.str "Medium") = .ok "2"
      ∧ IncidentUrgencyEnum (.str "Low") = .ok "3")
    ∧ (IncidentUrgencyEnum (.str "1") = .ok "1"
      ∧ IncidentUrgencyEnum (.str "2") = .ok "2"
      ∧ IncidentUrgencyEnum (.str "3") = .ok "3") :=
  ⟨⟨rfl, rfl, rfl, rfl, rfl, rfl⟩, ⟨rfl, rfl, rfl, rfl, rfl, rfl⟩,
   ⟨rfl, rfl, rfl, rfl, rfl⟩, ⟨rfl, rfl, rfl, rfl, rfl⟩,
   ⟨rfl, rfl, rfl⟩, rfl, rfl, rfl⟩

/-! ## Claim C2 — caret-joined serialization -/

/-- C2 counterexample: the claim "for every filter with n entries the
serialized encoded query contains exactly n-1 caret separators" fails as
stated, because a value may itself contain a caret: the one-entry filter
`{a: "x^y"}` serializes to `a=x^y`, which contains one caret, not zero.
(The fragment itself is built exactly as the claim says.) -/
theorem caret_separators_counterexample_c2 :
    buildEncodedQuery [("a", QueryValue.lit (Scalar.str "x^y"))] = "a=x^y"
    ∧ ¬ (countChar '^' (buildEncodedQuery [("a", QueryValue.lit (Scalar.str "x^y"))])
          = ([("a", QueryValue.lit (Scalar.str "x^y"))] : QueryFilter).length - 1) := by
  constructor
  · rfl
  · decide

/-- C2 (amended): each entry with an `Operator(op, v)` value serializes as
the field name followed by the operator's literal symbol text and the
value, each `Literal(v)` entry as `field=v`, and the output is the
caret-join of these fragments; consequently, provided no fragment (field
name, operator symbol or rendered value) itself contains a caret, the
output of a filter with n ≥ 1 entries contains exactly n-1 carets. -/
theorem caret_separators_amended_c2 (filter : QueryFilter)
    (_hne : filter ≠ [])
    (hfrag : ∀ e ∈ filter, countChar '^' (serializeEntry e) = 0) :
    buildEncodedQuery filter = String.intercalate "^" (filter.map serializeEntry)
    ∧ countChar '^' (buildEncodedQuery filter) = filter.length - 1 := by
  refine ⟨rfl, ?_⟩
  rw [buildEncodedQuery, countChar_intercalate]
  have hsum : ((filter.map serializeEntry).map (countChar '^')).sum = 0 := by
    rw [List.map_map]
    apply List.sum_eq_zero
    intro x hx
    rcases List.mem_map.mp hx with ⟨e, he, hex⟩
    rw [← hex]
    exact hfrag e he
  have hsep : countChar '^' "^" = 1 := by decide
  rw [hsum, hsep, List.length_map]
  omega

/-- C2 witness: a two-entry filter using the `<=` and `NOT IN` operator
symbols serializes to `priority<=3^stateNOT IN6,7` with exactly one caret. -/
theorem caret_separators_amended_c2_witness :
    buildEncodedQuery [("priority", QueryValue.opv QOp.lte (Scalar.num 3)),
        ("state", QueryValue.opv QOp.notIn (Scalar.str "6,7"))]
      = String.intercalate "^"
          ([("priority", QueryValue.opv QOp.lte (Scalar.num 3)),
            ("state", QueryValue.opv QOp.notIn (Scalar.str "6,7"))].map serializeEntry)
    ∧ countChar '^' (buildEncodedQuery [("priority", QueryValue.opv QOp.lte (Scalar.num 3)),
        ("state", QueryValue.opv QOp.notIn (Scalar.str "6,7"))])
      = ([("priority", QueryValue.opv QOp.lte (Scalar.num 3)),
          ("state", QueryValue.opv QOp.notIn (Scalar.str "6,7"))] : QueryFilter).length - 1 :=
  caret_separators_amended_c2
    [("priority", QueryValue.opv QOp.lte (Scalar.num 3)),
     ("state", QueryValue.opv QOp.notIn (Scalar.str "6,7"))]
    (by decide) (by decide)

/-! ## Claim C3 — empty filter -/

/-- C3 counterexample: for a query invocation whose filter is the empty
mapping (`{}`), the built request does NOT omit `sysparm_query`:
`if (filter)` is true for an empty object in JS, so the parameter is sent
with the empty string as its value. -/
theorem empty_filter_counterexample_c3 :
    lookupParam (queryTableParams (some ([] : QueryFilter))
        ⟨none, none, none, none, false⟩) "sysparm_query" = some ""
    ∧ ¬ (lookupParam (queryTableParams (some ([] : QueryFilter))
        ⟨none, none, none, none, false⟩) "sysparm_query" = none) := by
  constructor
  · rfl
  · decide

/-- C3 (amended): serializing the empty mapping yields the empty string,
and `sysparm_query` is omitted from the store request exactly when the
filter argument is absent (`undefined`); a present-but-empty mapping is
instead sent as an empty `sysparm_query` parameter. -/
theorem empty_filter_amended_c3 :
    buildEncodedQuery [] = ""
    ∧ (∀ o : TableQueryOptions,
        lookupParam (queryTableParams none o) "sysparm_query" = none)
    ∧ (∀ o : TableQueryOptions,
        lookupParam (queryTableParams (some ([] : QueryFilter)) o) "sysparm_query"
          = some "") := by
  refine ⟨rfl, ?_, ?_⟩
  · intro o
    rw [sysparm_query_param]
    rfl
  · intro o
    rw [sysparm_query_param]
    rfl

/-! ## Inversion lemmas for the validator combinators -/

/-- Whether an `Except` is an error. -/
def exIsError {ε α : Type} : Except ε α → Bool
  | .error _ => true
  | .ok _ => false

theorem exIsError_exists {ε α : Type} {x : Except ε α}
    (h : exIsError x = true) : ∃ e, x = .error e := by
  cases x with
  | error e => exact ⟨e, rfl⟩
  | ok _ => simp [exIsError] at h

theorem mapErrPrefix_ok {α : Type} {k : String} {x : Except (List Issue) α} {a : α} :
    mapErrPrefix k x = .ok a ↔ x = .ok a := by
  cases x <;> simp [mapErrPrefix]

theorem accum2_ok {α β : Type} {a : Except (List Issue) α}
    {b : Except (List Issue) β} {x : α} {y : β} :
    accum2 a b = .ok (x, y) ↔ a = .ok x ∧ b = .ok y := by
  cases a <;> cases b <;> simp [accum2, and_assoc]

theorem exIsError_accum2_left {α β : Type} {a : Except (List Issue) α}
    {b : Except (List Issue) β} (h : exIsError a = true) :
    exIsError (accum2 a b) = true := by
  cases a <;> cases b <;> simp_all [accum2, exIsError]

theorem exIsError_accum2_right {α β : Type} {a : Except (List Issue) α}
    {b : Except (List Issue) β} (h : exIsError b = true) :
    exIsError (accum2 a b) = true := by
  cases a <;> cases b <;> simp_all [accum2, exIsError]

theorem fieldReq_ok {α : Type} {k : String} {p : Json → Except (List Issue) α}
    {kvs : List (String × Json)} {a : α} :
    fieldReq k p kvs = .ok a ↔ ∃ j, getKey kvs k = some j ∧ p j = .ok a := by
  cases h : getKey kvs k <;> simp [fieldReq, h, mapErrPrefix_ok]

theorem fieldOpt_ok {α : Type} {k : String} {p : Json → Except (List Issue) α}
    {kvs : List (String × Json)} {a : Option α} :
    fieldOpt k p kvs = .ok a ↔
      (getKey kvs k = none ∧ a = none)
      ∨ (∃ j b, getKey kvs k = some j ∧ p j = .ok b ∧ a = some b) := by
  cases h : getKey kvs k with
  | none => simp [fieldOpt, h, eq_comm]
  | some j =>
    cases hp : p j with
    | ok b => simp [fieldOpt, h, mapErrPrefix, hp, eq_comm]
    | error es => simp [fieldOpt, h, mapErrPrefix, hp]

theorem fieldDefault_ok {α : Type} {k : String} {p : Json → Except (List Issue) α}
    {d : α} {kvs : List (String × Json)} {a : α} :
    fieldDefault k p d kvs = .ok a ↔
      (getKey kvs k = none ∧ a = d)
      ∨ (∃ j, getKey kvs k = some j ∧ p j = .ok a) := by
  cases h : getKey kvs k <;> simp [fieldDefault, h, mapErrPrefix_ok, eq_comm]

theorem parseMinStr_ok {msg : String} {j : Json} {s : String} :
    parseMinStr msg j = .ok s ↔ j = .str s ∧ s.length ≠ 0 := by
  cases j <;> simp [parseMinStr]
  case str t =>
    by_cases h : t.length = 0 <;> simp [h] <;> intro he <;> simp [← he, h]

theorem parseConfirm_ok {j : Json} {b : Bool} :
    parseConfirm j = .ok b ↔ j = .bool true ∧ b = true := by
  cases j <;> simp [parseConfirm]
  case bool c => cases c <;> simp [eq_comm]

/-- Inversion of a successful `IncidentDeleteSchema.parse`. -/
theorem validateDelete_ok_inv {j : Json} {d : DeleteInput}
    (h : validateDelete j = .ok d) :
    ∃ kvs, j = .obj kvs
      ∧ getKey kvs "identifier" = some (.str d.identifier)
      ∧ d.identifier.length ≠ 0
      ∧ getKey kvs "confirm" = some (.bool true)
      ∧ d.confirm = true := by
  cases j with
  | obj kvs =>
    refine ⟨kvs, rfl, ?_⟩
    cases hacc : accum2 (accum2
        (fieldReq "identifier" (parseMinStr "Identifier cannot be empty") kvs)
        (fieldReq "confirm" parseConfirm kvs))
        (fieldOpt "instance" parseInstance kvs) with
    | error es => simp [validateDelete, hacc] at h
    | ok v =>
      obtain ⟨⟨i, c⟩, inst⟩ := v
      simp only [validateDelete, hacc] at h
      cases h
      rw [accum2_ok] at hacc
      obtain ⟨hic, _⟩ := hacc
      rw [accum2_ok] at hic
      obtain ⟨hi, hc⟩ := hic
      rw [fieldReq_ok] at hi hc
      obtain ⟨j1, hj1, hp1⟩ := hi
      obtain ⟨j2, hj2, hp2⟩ := hc
      rw [parseMinStr_ok] at hp1
      rw [parseConfirm_ok] at hp2
      obtain ⟨rfl, hlen⟩ := hp1
      obtain ⟨rfl, rfl⟩ := hp2
      exact ⟨hj1, hlen, hj2, rfl⟩
  | str s => simp [validateDelete] at h
  | num q => simp [validateDelete] at h
  | bool b => simp [validateDelete] at h
  | null => simp [validateDelete] at h
  | arr xs => simp [validateDelete] at h

/-- The first store call identifier resolution issues: a direct fetch for
a native key, otherwise the number lookup with `limit = 1`. -/
def resolutionCall (identifier : String) : StoreCall :=
  if isSysId identifier then
    .getR "incident" identifier ⟨none, none, some ["sys_id", "number"], none, false⟩
  else
    .queryT "incident" (some [("number", .lit (.str identifier))])
      ⟨some 1, none, some ["sys_id", "number"], none, false⟩

/-! ## Claim C5 — delete confirmation -/

/-- C5: a delete payload whose `confirm` is absent or `false` fails
validation and issues no store call at all; with `confirm` literally
`true` the confirm check passes, and a fully validated delete proceeds to
identifier resolution (first store call) and, for a native key, to the
deletion call. -/
theorem delete_confirmation_c5 :
    (∀ (store : Store) (kvs : List (String × Json)), getKey kvs "confirm" = none →
        (incidentDeleteV store (.obj kvs)).2 = []
        ∧ exIsError (incidentDeleteV store (.obj kvs)).1 = true)
    ∧ (∀ (store : Store) (kvs : List (String × Json)),
        getKey kvs "confirm" = some (.bool false) →
        (incidentDeleteV store (.obj kvs)).2 = []
        ∧ exIsError (incidentDeleteV store (.obj kvs)).1 = true)
    ∧ (∀ kvs : List (String × Json), getKey kvs "confirm" = some (.bool true) →
        fieldReq "confirm" parseConfirm kvs = .ok true)
    ∧ (∀ (store : Store) (args : Json) (d : DeleteInput), validateDelete args = .ok d →
        d.confirm = true
        ∧ (incidentDeleteV store args).2.head? = some (resolutionCall d.identifier)
        ∧ (isSysId d.identifier = true →
            (incidentDeleteV store args).2
              = [resolutionCall d.identifier,
                 .deleteR "incident" (getField (store.getResult "incident" d.identifier
                    ⟨none, none, some ["sys_id", "number"], none, false⟩) "sys_id")])) := by
  refine ⟨?_, ?_, ?_, ?_⟩
  · intro store kvs h
    have hc : exIsError (fieldReq "confirm" parseConfirm kvs) = true := by
      simp [fieldReq, h, exIsError]
    have h1 : exIsError (accum2 (accum2
        (fieldReq "identifier" (parseMinStr "Identifier cannot be empty") kvs)
        (fieldReq "confirm" parseConfirm kvs))
        (fieldOpt "instance" parseInstance kvs)) = true :=
      exIsError_accum2_left (exIsError_accum2_right hc)
    obtain ⟨es, hes⟩ := exIsError_exists h1
    constructor <;> simp [incidentDeleteV, validateDelete, hes, exIsError]
  · intro store kvs h
    have hc : exIsError (fieldReq "confirm" parseConfirm kvs) = true := by
      simp [fieldReq, h, mapErrPrefix, parseConfirm, exIsError]
    have h1 : exIsError (accum2 (accum2
        (fieldReq "identifier" (parseMinStr "Identifier cannot be empty") kvs)
        (fieldReq "confirm" parseConfirm kvs))
        (fieldOpt "instance" parseInstance kvs)) = true :=
      exIsError_accum2_left (exIsError_accum2_right hc)
    obtain ⟨es, hes⟩ := exIsError_exists h1
    constructor <;> simp [incidentDeleteV, validateDelete, hes, exIsError]
  · intro kvs h
    simp [fieldReq, h, mapErrPrefix, parseConfirm]
  · intro store args d h
    obtain ⟨kvs, rfl, hid, hlen, hcf, hconf⟩ := validateDelete_ok_inv h
    refine ⟨hconf, ?_, ?_⟩
    · by_cases hs : isSysId d.identifier
      · simp [incidentDeleteV, h, hs, resolutionCall]
      · simp only [Bool.not_eq_true] at hs
        cases hq : store.queryResult "incident"
            (some [("number", QueryValue.lit (.str d.identifier))])
            ⟨some 1, none, some ["sys_id", "number"], none, false⟩ with
        | nil => simp [incidentDeleteV, h, hs, hq, resolutionCall]
        | cons r rs => simp [incidentDeleteV, h, hs, hq, resolutionCall]
    · intro hs
      simp [incidentDeleteV, h, hs, resolutionCall]

/-- A store whose every query returns no records. -/
def emptyStore : Store :=
  ⟨fun _ _ _ => [], fun _ _ _ => [], fun _ _ => [], fun _ _ _ => []⟩

/-- A store whose every lookup returns one fixed incident record. -/
def oneStore : Store :=
  ⟨fun _ _ _ => [[("sys_id", "abcdef0123456789abcdef0123456789"), ("number", "INC0010001")]],
   fun _ _ _ => [("sys_id", "abcdef0123456789abcdef0123456789"), ("number", "INC0010001")],
   fun _ _ => [("sys_id", "abcdef0123456789abcdef0123456789"), ("number", "INC0010001")],
   fun _ _ _ => [("sys_id", "abcdef0123456789abcdef0123456789"), ("number", "INC0010001")]⟩

/-- C5 witness: a payload without `confirm` fails with no store call, and
a confirmed delete by native key resolves and then deletes. -/
theorem delete_confirmation_c5_witness :
    ((incidentDeleteV emptyStore (Json.obj [("identifier", Json.str "INC0010001")])).2 = []
      ∧ exIsError (incidentDeleteV emptyStore
          (Json.obj [("identifier", Json.str "INC0010001")])).1 = true)
    ∧ fieldReq "confirm" parseConfirm [("confirm", Json.bool true)] = .ok true
    ∧ (incidentDeleteV oneStore (Json.obj [("identifier", Json.str "abcdef0123456789abcdef0123456789"),
          ("confirm", Json.bool true)])).2
        = [resolutionCall "abcdef0123456789abcdef0123456789",
           StoreCall.deleteR "incident" "abcdef0123456789abcdef0123456789"] := by
  refine ⟨delete_confirmation_c5.1 emptyStore _ rfl,
    delete_confirmation_c5.2.2.1 _ rfl, ?_⟩
  exact (delete_confirmation_c5.2.2.2 oneStore
    (Json.obj [("identifier", Json.str "abcdef0123456789abcdef0123456789"),
      ("confirm", Json.bool true)])
    ⟨"abcdef0123456789abcdef0123456789", true, none⟩ rfl).2.2 (by decide)

theorem exIsError_mapErrPrefix {α : Type} (k : String)
    (x : Except (List Issue) α) : exIsError (mapErrPrefix k x) = exIsError x := by
  cases x <;> simp [mapErrPrefix, exIsError]

/-- Inversion of a successful `parseLimit`. -/
theorem parseLimit_ok_inv {j : Json} {n : Int} (h : parseLimit j = .ok n) :
    ∃ x : Rat, j = .num x ∧ x.den = 1 ∧ ¬(x < 1) ∧ ¬(x > 1000) ∧ n = x.num := by
  cases j with
  | num x =>
    by_cases h1 : x.den = 1 <;> by_cases h2 : x < 1 <;> by_cases h3 : x > 1000 <;>
      simp [parseLimit, h1, h2, h3] at h
    exact ⟨x, rfl, h1, h2, h3, h.symm⟩
  | str s => simp [parseLimit] at h
  | bool b => simp [parseLimit] at h
  | null => simp [parseLimit] at h
  | arr xs => simp [parseLimit] at h
  | obj kvs => simp [parseLimit] at h

/-- A non-integral or out-of-bounds limit value always fails the checks. -/
theorem parseLimit_error_of_bad {x : Rat} (hbad : x.den ≠ 1 ∨ x < 1 ∨ x > 1000) :
    exIsError (parseLimit (.num x)) = true := by
  by_cases h1 : x.den = 1 <;> by_cases h2 : x < 1 <;> by_cases h3 : x > 1000 <;>
    simp [parseLimit, h1, h2, h3, exIsError] <;> tauto

/-- Inversion of a successful `IncidentQuerySchema.parse`. -/
theorem validateQuery_ok_inv {j : Json} {q : QueryInput} (h : validateQuery j = .ok q) :
    ∃ kvs, j = .obj kvs
      ∧ fieldOpt "filter" parseFilter kvs = .ok q.filter
      ∧ fieldDefault "limit" parseLimit 100 kvs = .ok q.limit
      ∧ fieldOpt "fields" parseFields kvs = .ok q.fields
      ∧ fieldOpt "instance" parseInstance kvs = .ok q.instanceName := by
  cases j with
  | obj kvs =>
    refine ⟨kvs, rfl, ?_⟩
    cases hacc : accum2 (accum2 (accum2
        (fieldOpt "filter" parseFilter kvs)
        (fieldDefault "limit" parseLimit 100 kvs))
        (fieldOpt "fields" parseFields kvs))
        (fieldOpt "instance" parseInstance kvs) with
    | error es => simp [validateQuery, hacc] at h
    | ok v =>
      obtain ⟨⟨⟨f, l⟩, fl⟩, inst⟩ := v
      simp only [validateQuery, hacc] at h
      cases h
      rw [accum2_ok] at hacc
      obtain ⟨h3, hinst⟩ := hacc
      rw [accum2_ok] at h3
      obtain ⟨h2, hfl⟩ := h3
      rw [accum2_ok] at h2
      obtain ⟨hf, hl⟩ := h2
      exact ⟨hf, hl, hfl, hinst⟩
  | str s => simp [validateQuery] at h
  | num x => simp [validateQuery] at h
  | bool b => simp [validateQuery] at h
  | null => simp [validateQuery] at h
  | arr xs => simp [validateQuery] at h

/-! ## Claim C6 — query limit default and bounds -/

/-- C6: a query payload that validates while omitting `limit` gets the
default 100; every validated limit lies in [1, 1000]; and a `limit` value
that is non-integral or outside [1, 1000] makes the whole payload a
validation failure. -/
theorem query_limit_c6 :
    (∀ (kvs : List (String × Json)) (q : QueryInput),
        validateQuery (.obj kvs) = .ok q → getKey kvs "limit" = none →
        q.limit = 100)
    ∧ (∀ (j : Json) (q : QueryInput), validateQuery j = .ok q →
        1 ≤ q.limit ∧ q.limit ≤ 1000)
    ∧ (∀ (kvs : List (String × Json)) (x : Rat),
        getKey kvs "limit" = some (.num x) →
        (x.den ≠ 1 ∨ x < 1 ∨ x > 1000) →
        exIsError (validateQuery (.obj kvs)) = true) := by
  refine ⟨?_, ?_, ?_⟩
  · intro kvs q h habs
    obtain ⟨kvs2, heq, _, hl, _, _⟩ := validateQuery_ok_inv h
    injection heq with heq2
    subst heq2
    rw [fieldDefault_ok] at hl
    rcases hl with ⟨_, hq⟩ | ⟨jj, hgk, _⟩
    · exact hq
    · rw [habs] at hgk
      cases hgk
  · intro j q h
    obtain ⟨kvs, _, _, hl, _, _⟩ := validateQuery_ok_inv h
    rw [fieldDefault_ok] at hl
    rcases hl with ⟨_, hq⟩ | ⟨jj, _, hp⟩
    · rw [hq]
      constructor <;> decide
    · obtain ⟨x, _, hden, hlo, hhi, hnum⟩ := parseLimit_ok_inv hp
      have hx : (x.num : ℚ) = x := (Rat.den_eq_one_iff x).mp hden
      have h1 : (1 : ℚ) ≤ x := not_lt.mp hlo
      have h3 : x ≤ 1000 := not_lt.mp hhi
      rw [← hx] at h1 h3
      rw [hnum]
      constructor
      · exact_mod_cast h1
      · exact_mod_cast h3
  · intro kvs x hk hbad
    have hl : exIsError (fieldDefault "limit" parseLimit 100 kvs) = true := by
      simp only [fieldDefault, hk]
      rw [exIsError_mapErrPrefix]
      exact parseLimit_error_of_bad hbad
    have hacc : exIsError (accum2 (accum2 (accum2
        (fieldOpt "filter" parseFilter kvs)
        (fieldDefault "limit" parseLimit 100 kvs))
        (fieldOpt "fields" parseFields kvs))
        (fieldOpt "instance" parseInstance kvs)) = true :=
      exIsError_accum2_left (exIsError_accum2_left (exIsError_accum2_right hl))
    obtain ⟨es, hes⟩ := exIsError_exists hacc
    simp [validateQuery, hes, exIsError]

/-- C6 witness: the empty payload validates with limit 100, bounds hold
for it, and a payload with limit 0 is rejected. -/
theorem query_limit_c6_witness :
    (⟨none, 100, none, none⟩ : QueryInput).limit = 100
    ∧ (1 ≤ (⟨none, 100, none, none⟩ : QueryInput).limit
        ∧ (⟨none, 100, none, none⟩ : QueryInput).limit ≤ 1000)
    ∧ exIsError (validateQuery (.obj [("limit", Json.num 0)])) = true :=
  ⟨query_limit_c6.1 [] ⟨none, 100, none, none⟩ rfl rfl,
   query_limit_c6.2.1 (.obj []) ⟨none, 100, none, none⟩ rfl,
   query_limit_c6.2.2 [("limit", Json.num 0)] 0 rfl (Or.inr (Or.inl (by decide)))⟩

/-! ## Claim C7 — collect-all validation failure reporting -/

/-- C7: an invalid payload makes each of the five operations (query, get,
create, update, delete) fail with the single formatted message carrying
every collected issue and make no store call;
the message has exactly one line per violated field under the header
(newline count = number of issues), and each line is prefixed by the
dotted field path exactly when that path is non-empty. -/
theorem collect_all_validation_c7 :
    (∀ (store : Store) (args : Json) (es : List Issue),
        validateQuery args = .error es →
        incidentQueryV store args = (.error (formatValidationError es), []))
    ∧ (∀ (store : Store) (args : Json) (es : List Issue),
        validateGet args = .error es →
        incidentGetV store args = (.error (formatValidationError es), []))
    ∧ (∀ (store : Store) (args : Json) (es : List Issue),
        validateCreate args = .error es →
        incidentCreateV store args = (.error (formatValidationError es), []))
    ∧ (∀ (store : Store) (args : Json) (es : List Issue),
        validateUpdate args = .error es →
        incidentUpdateV store args = (.error (formatValidationError es), []))
    ∧ (∀ (store : Store) (args : Json) (es : List Issue),
        validateDelete args = .error es →
        incidentDeleteV store args = (.error (formatValidationError es), []))
    ∧ (∀ es : List Issue, es ≠ [] →
        (∀ i ∈ es, countChar '\n' (renderIssue i) = 0) →
        countChar '\n' (formatValidationError es) = es.length)
    ∧ (∀ i : Issue, i.path = [] → renderIssue i = "  - " ++ i.message)
    ∧ (∀ i : Issue, String.intercalate "." i.path ≠ "" →
        renderIssue i
          = "  - " ++ String.intercalate "." i.path ++ ": " ++ i.message) := by
  refine ⟨?_, ?_, ?_, ?_, ?_, ?_, ?_, ?_⟩
  · intro store args es h
    simp [incidentQueryV, h]
  · intro store args es h
    simp [incidentGetV, h]
  · intro store args es h
    simp [incidentCreateV, h]
  · intro store args es h
    simp [incidentUpdateV, h]
  · intro store args es h
    simp [incidentDeleteV, h]
  · intro es hne hclean
    simp only [formatValidationError]
    rw [countChar_append, countChar_intercalate]
    have hsum : ((es.map renderIssue).map (countChar '\n')).sum = 0 := by
      rw [List.map_map]
      apply List.sum_eq_zero
      intro x hx
      rcases List.mem_map.mp hx with ⟨i, hi, hix⟩
      rw [← hix]
      exact hclean i hi
    have hh : countChar '\n' "Validation Error:\n" = 1 := by decide
    have hsep : countChar '\n' "\n" = 1 := by decide
    rw [hsum, hh, hsep, List.length_map]
    have hlen : es.length ≠ 0 := by simpa using hne
    omega
  · intro i h
    simp [renderIssue, h, String.intercalate]
  · intro i h
    simp only [renderIssue, if_neg h]
    simp [String.append_assoc]

/-- C7 witness: a delete payload violating both `identifier` and `confirm`
is rejected with both issues reported in one two-line message and no
store call, and a create payload violating both `short_description` and
`priority` is likewise rejected with both issues and no store call. -/
theorem collect_all_validation_c7_witness :
    incidentDeleteV emptyStore
        (Json.obj [("identifier", Json.str ""), ("confirm", Json.bool false)])
      = (.error (formatValidationError
          [⟨["identifier"], "Identifier cannot be empty"⟩,
           ⟨["confirm"], "Deletion requires explicit confirmation. Set confirm to true."⟩]), [])
    ∧ incidentCreateV emptyStore
        (Json.obj [("short_description", Json.str ""), ("priority", Json.str "Urgent")])
      = (.error (formatValidationError
          [⟨["short_description"], "Short description is required and cannot be empty"⟩,
           ⟨["priority"], "Invalid enum value"⟩]), [])
    ∧ formatValidationError
          [⟨["identifier"], "Identifier cannot be empty"⟩,
           ⟨["confirm"], "Deletion requires explicit confirmation. Set confirm to true."⟩]
        = "Validation Error:\n  - identifier: Identifier cannot be empty\n  - confirm: Deletion requires explicit confirmation. Set confirm to true."
    ∧ countChar '\n' (formatValidationError
          [⟨["identifier"], "Identifier cannot be empty"⟩,
           ⟨["confirm"], "Deletion requires explicit confirmation. Set confirm to true."⟩])
        = ([⟨["identifier"], "Identifier cannot be empty"⟩,
            (⟨["confirm"], "Deletion requires explicit confirmation. Set confirm to true."⟩ : Issue)] : List Issue).length :=
  ⟨collect_all_validation_c7.2.2.2.2.1 emptyStore _ _ rfl,
   collect_all_validation_c7.2.2.1 emptyStore _ _ rfl,
   rfl,
   collect_all_validation_c7.2.2.2.2.2.1 _ (by decide) (by decide)⟩

/-- Inversion of a successful `IncidentGetSchema.parse`. -/
theorem validateGet_ok_inv {j : Json} {g : GetInput} (h : validateGet j = .ok g) :
    ∃ kvs, j = .obj kvs
      ∧ getKey kvs "identifier" = some (.str g.identifier)
      ∧ g.identifier.length ≠ 0
      ∧ fieldOpt "fields" parseFields kvs = .ok g.fields := by
  cases j with
  | obj kvs =>
    refine ⟨kvs, rfl, ?_⟩
    cases hacc : accum2 (accum2
        (fieldReq "identifier" (parseMinStr "Identifier cannot be empty") kvs)
        (fieldOpt "fields" parseFields kvs))
        (fieldOpt "instance" parseInstance kvs) with
    | error es => simp [validateGet, hacc] at h
    | ok v =>
      obtain ⟨⟨i, fl⟩, inst⟩ := v
      simp only [validateGet, hacc] at h
      cases h
      rw [accum2_ok] at hacc
      obtain ⟨hif, _⟩ := hacc
      rw [accum2_ok] at hif
      obtain ⟨hi, hfl⟩ := hif
      rw [fieldReq_ok] at hi
      obtain ⟨j1, hj1, hp1⟩ := hi
      rw [parseMinStr_ok] at hp1
      obtain ⟨rfl, hlen⟩ := hp1
      exact ⟨hj1, hlen, hfl⟩
  | str s => simp [validateGet] at h
  | num x => simp [validateGet] at h
  | bool b => simp [validateGet] at h
  | null => simp [validateGet] at h
  | arr xs => simp [validateGet] at h

/-! ## Claim C8 — not-found as normal descriptive results -/

/-- C8: zero matching records produce descriptive text as a normal,
non-thrown result: a query with no matches returns exactly
`No incidents found matching the criteria.`, and a get by a non-hex-32
identifier whose lookup is empty returns exactly
`Incident "<identifier>" not found.`. -/
theorem empty_result_messages_c8 :
    (∀ (store : Store) (args : Json) (q : QueryInput),
        validateQuery args = .ok q →
        store.queryResult "incident" q.filter ⟨some q.limit, none, q.fields, none, false⟩ = [] →
        (incidentQueryV store args).1 = .ok "No incidents found matching the criteria.")
    ∧ (∀ (store : Store) (args : Json) (g : GetInput),
        validateGet args = .ok g →
        isSysId g.identifier = false →
        store.queryResult "incident" (some [("number", QueryValue.lit (.str g.identifier))])
          ⟨some 1, none, g.fields, none, false⟩ = [] →
        (incidentGetV store args).1
          = .ok ("Incident \"" ++ g.identifier ++ "\" not found.")) := by
  constructor
  · intro store args q h hq
    simp [incidentQueryV, h, hq]
  · intro store args g h hs hq
    simp [incidentGetV, h, hs, hq]

/-- C8 witness: against a store with no records, the empty query payload
reports the no-incidents sentence, and getting `INC0010001` reports the
interpolated not-found sentence. -/
theorem empty_result_messages_c8_witness :
    (incidentQueryV emptyStore (Json.obj [])).1
      = .ok "No incidents found matching the criteria."
    ∧ (incidentGetV emptyStore (Json.obj [("identifier", Json.str "INC0010001")])).1
      = .ok "Incident \"INC0010001\" not found." :=
  ⟨empty_result_messages_c8.1 emptyStore (Json.obj []) ⟨none, 100, none, none⟩ rfl rfl,
   empty_result_messages_c8.2 emptyStore (Json.obj [("identifier", Json.str "INC0010001")])
     ⟨"INC0010001", none, none⟩ rfl (by decide) rfl⟩

/-! ## Claim C4 — native key recognition and lookup -/

/-- C4: for a hex-32 identifier (case-insensitive), get and update issue
no lookup query and use the identifier directly as the native key; for any
other identifier they issue exactly one lookup query on the number field
with limit 1, and an empty lookup yields the not-found outcome. -/
theorem identifier_resolution_c4 :
    (∀ (store : Store) (args : Json) (g : GetInput), validateGet args = .ok g →
        isSysId g.identifier = true →
        (incidentGetV store args).2
          = [.getR "incident" g.identifier ⟨none, none, g.fields, none, false⟩])
    ∧ (∀ (store : Store) (args : Json) (g : GetInput), validateGet args = .ok g →
        isSysId g.identifier = false →
        queryCalls (incidentGetV store args).2
          = [.queryT "incident" (some [("number", QueryValue.lit (.str g.identifier))])
              ⟨some 1, none, g.fields, none, false⟩])
    ∧ (∀ (store : Store) (args : Json) (g : GetInput), validateGet args = .ok g →
        isSysId g.identifier = false →
        store.queryResult "incident" (some [("number", QueryValue.lit (.str g.identifier))])
          ⟨some 1, none, g.fields, none, false⟩ = [] →
        (incidentGetV store args).1
          = .ok ("Incident \"" ++ g.identifier ++ "\" not found."))
    ∧ (∀ (store : Store) (args : Json) (u : List (String × Json)),
        validateUpdate args = .ok u →
        isSysId (getStrD u "identifier") = true →
        (incidentUpdateV store args).2
          = [.updateR "incident" (getStrD u "identifier") (updateDataOf u)])
    ∧ (∀ (store : Store) (args : Json) (u : List (String × Json)),
        validateUpdate args = .ok u →
        isSysId (getStrD u "identifier") = false →
        queryCalls (incidentUpdateV store args).2
          = [.queryT "incident"
              (some [("number", QueryValue.lit (.str (getStrD u "identifier")))])
              ⟨some 1, none, some ["sys_id", "number"], none, false⟩])
    ∧ (∀ (store : Store) (args : Json) (u : List (String × Json)),
        validateUpdate args = .ok u →
        isSysId (getStrD u "identifier") = false →
        store.queryResult "incident"
          (some [("number", QueryValue.lit (.str (getStrD u "identifier")))])
          ⟨some 1, none, some ["sys_id", "number"], none, false⟩ = [] →
        (incidentUpdateV store args).1
          = .ok ("Incident \"" ++ getStrD u "identifier" ++ "\" not found.")) := by
  refine ⟨?_, ?_, ?_, ?_, ?_, ?_⟩
  · intro store args g h hs
    simp [incidentGetV, h, hs]
  · intro store args g h hs
    cases hq : store.queryResult "incident"
        (some [("number", QueryValue.lit (.str g.identifier))])
        ⟨some 1, none, g.fields, none, false⟩ with
    | nil => simp [incidentGetV, h, hs, hq, queryCalls]
    | cons r rs => simp [incidentGetV, h, hs, hq, queryCalls]
  · intro store args g h hs hq
    simp [incidentGetV, h, hs, hq]
  · intro store args u h hs
    simp [incidentUpdateV, h, hs]
  · intro store args u h hs
    cases hq : store.queryResult "incident"
        (some [("number", QueryValue.lit (.str (getStrD u "identifier")))])
        ⟨some 1, none, some ["sys_id", "number"], none, false⟩ with
    | nil => simp [incidentUpdateV, h, hs, hq, queryCalls]
    | cons r rs => simp [incidentUpdateV, h, hs, hq, queryCalls]
  · intro store args u h hs hq
    simp [incidentUpdateV, h, hs, hq]

/-- C4 witness: a hex-32 get issues only the direct fetch; a
number-identifier get issues exactly one lookup; an update by an unknown
number reports not-found after its single lookup. -/
theorem identifier_resolution_c4_witness :
    (incidentGetV emptyStore
        (Json.obj [("identifier", Json.str "abcdef0123456789abcdef0123456789")])).2
      = [.getR "incident" "abcdef0123456789abcdef0123456789" ⟨none, none, none, none, false⟩]
    ∧ queryCalls (incidentGetV emptyStore
        (Json.obj [("identifier", Json.str "INC0010001")])).2
      = [.queryT "incident" (some [("number", QueryValue.lit (.str "INC0010001"))])
          ⟨some 1, none, none, none, false⟩]
    ∧ (incidentUpdateV emptyStore
        (Json.obj [("identifier", Json.str "INC0010001"), ("state", Json.str "New")])).1
      = .ok ("Incident \"" ++ "INC0010001" ++ "\" not found.") :=
  ⟨identifier_resolution_c4.1 emptyStore _ ⟨"abcdef0123456789abcdef0123456789", none, none⟩
      rfl (by decide),
   identifier_resolution_c4.2.1 emptyStore _ ⟨"INC0010001", none, none⟩ rfl (by decide),
   identifier_resolution_c4.2.2.2.2.2 emptyStore _
      [("identifier", Json.str "INC0010001"), ("state", Json.str "1")] rfl (by decide) rfl⟩

/-- Membership in the rest-destructured update payload. -/
theorem mem_updateDataOf {u : List (String × Json)} {kv : String × Json} :
    kv ∈ updateDataOf u ↔ kv ∈ u ∧ kv.1 ≠ "identifier" ∧ kv.1 ≠ "instance" := by
  simp [updateDataOf, List.mem_filter, not_or]

/-- The rest-destructured update payload never carries the two extracted
keys. -/
theorem updateDataOf_no_key (u : List (String × Json)) (k : String)
    (hk : k = "identifier" ∨ k = "instance") :
    k ∉ (updateDataOf u).map Prod.fst := by
  intro hmem
  rcases List.mem_map.mp hmem with ⟨kv, hkv, hfst⟩
  rw [mem_updateDataOf] at hkv
  rcases hk with rfl | rfl
  · exact hkv.2.1 hfst
  · exact hkv.2.2 hfst

/-! ## Claim C9 — update payload excludes identifier and instance -/

/-- C9: whatever data object reaches the store's update call is exactly
the validated payload minus the `identifier` and `instance` keys: neither
key ever appears in it, and every other validated entry appears in it
unchanged. -/
theorem update_payload_exclusion_c9 :
    ∀ (store : Store) (args : Json) (u : List (String × Json)) (sysId : String)
      (d : List (String × Json)),
      validateUpdate args = .ok u →
      StoreCall.updateR "incident" sysId d ∈ (incidentUpdateV store args).2 →
      d = u.filter (fun kv => !(kv.1 == "identifier" || kv.1 == "instance"))
      ∧ "identifier" ∉ d.map Prod.fst
      ∧ "instance" ∉ d.map Prod.fst
      ∧ (∀ kv ∈ u, kv.1 ≠ "identifier" → kv.1 ≠ "instance" → kv ∈ d) := by
  intro store args u sysId d h hmem
  have hd : d = updateDataOf u := by
    by_cases hs : isSysId (getStrD u "identifier")
    · simp [incidentUpdateV, h, hs] at hmem
      exact hmem.2
    · simp only [Bool.not_eq_true] at hs
      cases hq : store.queryResult "incident"
          (some [("number", QueryValue.lit (.str (getStrD u "identifier")))])
          ⟨some 1, none, some ["sys_id", "number"], none, false⟩ with
      | nil => simp [incidentUpdateV, h, hs, hq] at hmem
      | cons r rs =>
        simp [incidentUpdateV, h, hs, hq] at hmem
        exact hmem.2
  subst hd
  refine ⟨rfl, updateDataOf_no_key u _ (Or.inl rfl),
    updateDataOf_no_key u _ (Or.inr rfl), ?_⟩
  intro kv hkv h1 h2
  exact mem_updateDataOf.mpr ⟨hkv, h1, h2⟩

/-- C9 witness: updating by native key with a state change, an instance
selector and a passthrough field sends only the state and passthrough
entries to the store. -/
theorem update_payload_exclusion_c9_witness :
    ([("state", Json.str "2"), ("foo", Json.str "bar")] : List (String × Json))
      = ([("identifier", Json.str "abcdef0123456789abcdef0123456789"),
          ("state", Json.str "2"), ("instance", Json.str "dev"),
          ("foo", Json.str "bar")] : List (String × Json)).filter
          (fun kv => !(kv.1 == "identifier" || kv.1 == "instance"))
    ∧ "identifier" ∉ ([("state", Json.str "2"), ("foo", Json.str "bar")]
        : List (String × Json)).map Prod.fst
    ∧ "instance" ∉ ([("state", Json.str "2"), ("foo", Json.str "bar")]
        : List (String × Json)).map Prod.fst := by
  have hmem : StoreCall.updateR "incident" "abcdef0123456789abcdef0123456789"
      [("state", Json.str "2"), ("foo", Json.str "bar")]
      ∈ (incidentUpdateV emptyStore
          (Json.obj [("identifier", Json.str "abcdef0123456789abcdef0123456789"),
            ("state", Json.str "In Progress"), ("instance", Json.str "dev"),
            ("foo", Json.str "bar")])).2 := by
    have ht : (incidentUpdateV emptyStore
        (Json.obj [("identifier", Json.str "abcdef0123456789abcdef0123456789"),
          ("state", Json.str "In Progress"), ("instance", Json.str "dev"),
          ("foo", Json.str "bar")])).2
        = [StoreCall.updateR "incident" "abcdef0123456789abcdef0123456789"
            [("state", Json.str "2"), ("foo", Json.str "bar")]] := rfl
    rw [ht]
    exact List.mem_singleton.mpr rfl
  have h := update_payload_exclusion_c9 emptyStore
    (Json.obj [("identifier", Json.str "abcdef0123456789abcdef0123456789"),
      ("state", Json.str "In Progress"), ("instance", Json.str "dev"),
      ("foo", Json.str "bar")])
    [("identifier", Json.str "abcdef0123456789abcdef0123456789"),
     ("state", Json.str "2"), ("instance", Json.str "dev"),
     ("foo", Json.str "bar")]
    "abcdef0123456789abcdef0123456789"
    [("state", Json.str "2"), ("foo", Json.str "bar")]
    rfl hmem
  exact ⟨h.1, h.2.1, h.2.2.1⟩

/-- `z.array(z.string())` succeeds exactly on all-string JS arrays, with
the element list as its value. -/
theorem parseStrList_ok (idx : Nat) (xs : List Json) (l : List String) :
    parseStrList idx xs = .ok l ↔ allStrings xs = some l := by
  induction xs generalizing idx l with
  | nil => simp [parseStrList, allStrings]
  | cons x xs ih =>
    cases hrec : parseStrList (idx + 1) xs with
    | ok l2 =>
      have h2 : allStrings xs = some l2 := (ih (idx + 1) l2).mp hrec
      cases x <;> simp [parseStrList, mapErrPrefix, parseStr, allStrings, hrec, h2]
    | error es =>
      cases hx : allStrings xs with
      | none =>
        cases x <;> simp [parseStrList, mapErrPrefix, parseStr, allStrings, hrec, hx]
      | some l2 =>
        have hok := (ih (idx + 1) l2).mpr hx
        rw [hok] at hrec
        cases hrec

/-! ## Claim C10 — legacy and validated get agree on accepted inputs -/

/-- C10: on every payload the get schema accepts, the legacy (unvalidated)
and the schema-validated implementations of the get operation return the
same result string and issue the same sequence of store calls against
the same store. -/
theorem get_refinement_c10 (store : Store) (args : Json) (g : GetInput)
    (h : validateGet args = .ok g) :
    incidentGetV store args = incidentGetLegacy store args := by
  obtain ⟨kvs, rfl, hid, hlen, hfl⟩ := validateGet_ok_inv h
  have hid2 : jsStrField (.obj kvs) "identifier" = g.identifier := by
    simp [jsStrField, hid]
  have hfl2 : jsFieldsField (.obj kvs) = g.fields := by
    rw [fieldOpt_ok] at hfl
    rcases hfl with ⟨hnone, hgf⟩ | ⟨jj, b, hjj, hpb, hgf⟩
    · simp [jsFieldsField, hnone, hgf]
    · cases jj with
      | arr xs =>
        simp only [parseFields] at hpb
        rw [parseStrList_ok] at hpb
        simp [jsFieldsField, hjj, hpb, hgf]
      | str s => simp [parseFields] at hpb
      | num q => simp [parseFields] at hpb
      | bool b2 => simp [parseFields] at hpb
      | null => simp [parseFields] at hpb
      | obj kvs2 => simp [parseFields] at hpb
  simp [incidentGetV, incidentGetLegacy, h, hid2, hfl2]

/-- C10 witness: both implementations coincide on a concrete accepted
payload with a field selection, against a store holding one record. -/
theorem get_refinement_c10_witness :
    incidentGetV oneStore (Json.obj [("identifier", Json.str "INC0010001"),
        ("fields", Json.arr [Json.str "number"])])
      = incidentGetLegacy oneStore (Json.obj [("identifier", Json.str "INC0010001"),
        ("fields", Json.arr [Json.str "number"])]) :=
  get_refinement_c10 oneStore _ ⟨"INC0010001", some ["number"], none⟩ rfl
